import Mathlib

/-!
Verification of the pysam build orchestrator (setup.py) against its
natural-language specification.  The definitions below are a shallow
embedding of the relevant parts of setup.py: external processes
(configure, make, nm, the C compiler) are modelled by oracle arguments
giving their observable results, the process environment is a function
from variable names to optional string values, and Python exceptions are
modelled with Option/Except.
-/

namespace PysamSetup

/-- Python truthiness of an optional environment-variable value:
present and non-empty. -/
def truthy : Option String → Bool
  | none => false
  | some s => s ≠ ""

/-- Splitting a character list at every separator character, keeping
empty segments, as Python str.split(sep) does. -/
def splitCharList (p : Char → Bool) : List Char → List (List Char)
  | [] => [[]]
  | c :: rest =>
      if p c then [] :: splitCharList p rest
      else match splitCharList p rest with
           | [] => [[c]]
           | g :: gs => (c :: g) :: gs

/-- Python str.split(sep) for a one-character separator: split at every
occurrence, keeping empty fields. -/
def pySplit (sep : Char) (s : String) : List String :=
  (splitCharList (fun c => c = sep) s.toList).map String.mk

/-- Python str.split() with no argument: split on whitespace and drop
empty fields. -/
def pyWords (s : String) : List String :=
  ((splitCharList (fun c => c.isWhitespace) s.toList).map String.mk).filter
    (fun w => w ≠ "")

/-- Python str.strip(): remove leading and trailing whitespace. -/
def pyStrip (s : String) : String :=
  String.mk
    (((s.toList.dropWhile Char.isWhitespace).reverse.dropWhile
        Char.isWhitespace).reverse)

/-- Python str.startswith. -/
def pyStartsWith (p s : String) : Bool :=
  p.toList.isPrefixOf s.toList

/-- Python str.endswith. -/
def pyEndsWith (p s : String) : Bool :=
  p.toList.isSuffixOf s.toList

/-- Python s[n:]. -/
def pyDrop (s : String) (n : Nat) : String :=
  String.mk (s.toList.drop n)

/-- Python substring containment test (needle in haystack). -/
def pyInStr (needle hay : String) : Bool :=
  hay.toList.tails.any (fun t => needle.toList.isPrefixOf t)

/-- Python str.lstrip(chars): drop leading characters that occur in chars. -/
def pyLstrip (s chars : String) : String :=
  String.mk (s.toList.dropWhile (fun c => chars.toList.contains c))

/-! ## run_nm_defined_symbols (setup.py lines 93 to 110) -/

/-- Processing of one nm -g -P output line (setup.py lines 98 to 105),
given the whitespace-split fields of the line.  Returns none when the
line has fewer than two fields, where the Python tuple unpacking of
line.split()[:2] would raise ValueError. -/
def nmStep (isDarwin : Bool) (acc : Finset String) (fields : List String) :
    Option (Finset String) :=
  match fields with
  | sym :: symtype :: _ =>
      some (if pyInStr symtype "UFNWw" then acc
            else if isDarwin then
              -- On macOS, all symbols have a leading underscore
              insert (if pyStartsWith "_" sym then pyDrop sym 1 else sym) acc
            else if "_$.@".toList.contains (sym.toList.headD ' ') then acc
            else insert sym acc)
  | _ => none

/-- run_nm_defined_symbols (setup.py lines 93 to 110), with the nm stdout
given as its list of lines.  The final discard works around a Cython
3.1.2 bug, as in the source. -/
def run_nm_defined_symbols (isDarwin : Bool) (outLines : List String) :
    Option (Finset String) :=
  (outLines.foldlM (fun acc line => nmStep isDarwin acc (pyWords line)) ∅).map
    (fun s => s.erase "__pyx_CommonTypesMetaclass_get_module")

/-! ## cy_build_ext.check_ext_symbol_conflicts (setup.py lines 259 to 276) -/

/-- symbols.setdefault(sym, []).append(owner) on an insertion-ordered
dict, modelled as an association list with unique keys. -/
def addSym : List (String × List String) → String → String →
    List (String × List String)
  | [], sym, owner => [(sym, [owner])]
  | p :: rest, sym, owner =>
      if p.1 = sym then (p.1, p.2 ++ [owner]) :: rest
      else p :: addSym rest sym owner

/-- The symbols dict built by check_ext_symbol_conflicts (setup.py lines
265 to 268).  Each built module is given as a pair of its extension name
and an enumeration of its nm-defined symbol set. -/
def symbolDict (mods : List (String × List String)) :
    List (String × List String) :=
  mods.foldl
    (fun d m => m.2.foldl (fun d sym => addSym d sym (pyLstrip m.1 "pysam.")) d)
    []

/-- check_ext_symbol_conflicts raises LinkError iff some symbol has more
than one owning module (setup.py lines 270 to 276). -/
def check_raises (mods : List (String × List String)) : Bool :=
  (symbolDict mods).any (fun e => e.2.length > 1)

/-- cy_build_ext.run (setup.py lines 294 to 306): the symbol-conflict
check runs only when HTSLIB_MODE is not separate, and the run raises
iff the check runs and finds a conflict (nm itself is assumed to
succeed; its failure is caught and merely warned about in the source). -/
def cy_run_raises (htslib_mode : String)
    (mods : List (String × List String)) : Bool :=
  if htslib_mode = "separate" then false else check_raises mods

/-- Whether cy_build_ext.run invokes the symbol validator at all. -/
def validator_runs (htslib_mode : String) : Bool :=
  htslib_mode != "separate"

/-- The modules that define a given symbol, in declaration order, named
as check_ext_symbol_conflicts names them (ext.name.lstrip of pysam.). -/
def definingModules (mods : List (String × List String)) (sym : String) :
    List String :=
  (mods.filter (fun m => sym ∈ m.2)).map (fun m => pyLstrip m.1 "pysam.")

/-! ## configure_library (setup.py lines 196 to 217) -/

/-- configure_library, with run_configure modelled by the oracle ok
giving, for each option string, whether ./configure exits with status 0.
scriptExists models os.path.exists of the configure script; onRtd models
the READTHEDOCS environment check; the error case models the ValueError
raised for a missing configure script. -/
def configure_library (scriptExists : Bool) (onRtd : Bool)
    (ok : String → Bool) (env_options : Option String)
    (options : List String) : Except String (Option String) :=
  let env_options := if onRtd then some "--disable-bz2" else env_options
  if !scriptExists then
    .error "configure script does not exist"
  else
    match env_options with
    | some e => if ok e then .ok (some e) else .ok (options.find? ok)
    | none => .ok (options.find? ok)

/-! ## build_config_dict (setup.py lines 117 to 154) -/

/-- The declared attributes of a setuptools Extension that
build_config_dict consults. -/
structure ExtDecl where
  include_dirs : List String
  define_macros : List (String × Option String)
  undef_macros : List String
  extra_compile_args : List String
  library_dirs : List String
  extra_link_args : List String
  libraries : List String
  deriving Repr, DecidableEq

/-- env(var) of build_config_dict (setup.py lines 118 to 119). -/
def envList (environ : String → Option String) (var : String) : List String :=
  match environ var with
  | some s => [s]
  | none => []

/-- sc(var) of build_config_dict (setup.py lines 121 to 123), with
sysconfig.get_config_var modelled as an optional-string lookup. -/
def scList (sysvars : String → Option String) (var : String) : List String :=
  match sysvars var with
  | some v => [v]
  | none => []

/-- quote of optionise (setup.py line 126). -/
def quoteOpt (s : String) : String :=
  if s.toList.contains ' ' then "\x27" ++ s ++ "\x27" else s

/-- optionise (setup.py lines 125 to 127). -/
def optionise (opt : String) (valuelist : List String) : List String :=
  valuelist.map (fun v => quoteOpt (opt ++ v))

/-- kvtuples (setup.py lines 129 to 131). -/
def kvtuples (pairlist : List (String × Option String)) : List String :=
  pairlist.map (fun t => match t.2 with
                         | none => t.1
                         | some v => t.1 ++ "=" ++ v)

/-- The CFLAGS component list of build_config_dict before joining
(setup.py lines 141 to 142). -/
def cflagsList (environ sysvars : String → Option String) (ext : ExtDecl) :
    List String :=
  scList sysvars "CFLAGS" ++ envList environ "CFLAGS" ++
    scList sysvars "CCSHARED" ++ ext.extra_compile_args

/-- The LDFLAGS component list of build_config_dict before joining
(setup.py lines 146 to 148). -/
def ldflagsList (environ sysvars : String → Option String) (ext : ExtDecl) :
    List String :=
  scList sysvars "LDFLAGS" ++ envList environ "LDFLAGS" ++
    envList environ "CFLAGS" ++ optionise "-L" ext.library_dirs ++
    ext.extra_link_args

/-- The CPPFLAGS component list of build_config_dict before joining
(setup.py lines 137 to 139); distutils ignores sysconfig for CPPFLAGS,
so no sysconfig argument occurs. -/
def cppflagsList (environ : String → Option String) (ext : ExtDecl) :
    List String :=
  envList environ "CPPFLAGS" ++ optionise "-I" ext.include_dirs ++
    optionise "-D" (kvtuples ext.define_macros) ++
    optionise "-U" ext.undef_macros

/-- The resulting dictionary of build_config_dict. -/
structure ConfigDict where
  CC : String
  CPPFLAGS : String
  CFLAGS : String
  LDFLAGS : String
  LIBS : String
  deriving Repr, DecidableEq

/-- build_config_dict (setup.py lines 117 to 154). -/
def build_config_dict (environ sysvars : String → Option String)
    (ext : ExtDecl) : ConfigDict :=
  { CC := (envList environ "CC" ++ scList sysvars "CC" ++ ["gcc"]).headD "gcc"
    CPPFLAGS := " ".intercalate (cppflagsList environ ext)
    CFLAGS := " ".intercalate (cflagsList environ sysvars ext)
    LDFLAGS := " ".intercalate (ldflagsList environ sysvars ext)
    LIBS := " ".intercalate (optionise "-l" ext.libraries) }

/-! ## cy_build_ext.c99_compile_args and build_extensions
(setup.py lines 278 to 319) -/

/-- The fixed probe sequence of c99_compile_args (setup.py line 283). -/
def probeSequence : List (Option (List String)) :=
  [none, some ["-std=c99"], some ["-std=gnu99"]]

/-- c99_compile_args (setup.py lines 278 to 292), with self.compiler.compile
on the trivial conftest source modelled by the oracle compileOk giving,
for each extra_preargs value, whether the compile succeeds.  When every
attempt raises CompileError the function logs an error and returns None,
which is also the value returned when the first (flag-free) attempt
succeeds. -/
def c99_compile_args (compileOk : Option (List String) → Bool) :
    Option (List String) :=
  (probeSequence.find? compileOk).join

/-- A distutils compiler command attribute: a list of words, a plain
string, or absent (getattr default None). -/
inductive PyCmd where
  | lst (xs : List String)
  | strv (s : String)
  | absent
  deriving Repr, DecidableEq

/-- Python truthiness of a command attribute. -/
def PyCmd.truthyCmd : PyCmd → Bool
  | .lst xs => xs ≠ []
  | .strv s => s ≠ ""
  | .absent => false

/-- The compiler and compiler_so executables of the active CCompiler. -/
structure CompilerExecutables where
  compiler : PyCmd
  compiler_so : PyCmd
  deriving Repr, DecidableEq

/-- The per-executable update of build_extensions (setup.py lines 311 to
317): a truthy command has the probed flags appended; an absent or falsy
command is left out of the executables dict and hence unchanged. -/
def updateCmd (flags : List String) (cmd : PyCmd) : PyCmd :=
  match cmd with
  | .lst xs => if xs ≠ [] then .lst (xs ++ flags) else cmd
  | .strv s => if s ≠ "" then .strv (s ++ " " ++ " ".intercalate flags) else cmd
  | .absent => cmd

/-- The compiler-executables effect of cy_build_ext.build_extensions
(setup.py lines 308 to 319): the probe runs once, and only a truthy
probe result (a non-empty flag list) modifies the executables; the
method then unconditionally proceeds to build every module with the
resulting executables. -/
def build_extensions (compileOk : Option (List String) → Bool)
    (cc : CompilerExecutables) : CompilerExecutables :=
  match c99_compile_args compileOk with
  | some flags =>
      if flags ≠ [] then
        { compiler := updateCmd flags cc.compiler
          compiler_so := updateCmd flags cc.compiler_so }
      else cc
  | none => cc

/-- An event trace of one cy_build_ext run over the declared modules:
build_extensions performs the single feature probe and then compiles
each module in order (build_extension contains no probe). -/
inductive BuildEvent where
  | probe
  | compileModule (name : String)
  deriving Repr, DecidableEq

/-- The event trace of build_extensions (setup.py lines 308 to 319
followed by one build_extension per declared module). -/
def build_extensions_events (moduleNames : List String) : List BuildEvent :=
  .probe :: moduleNames.map .compileModule

/-! ## changedir and set_compiler_envvars (setup.py lines 51 to 58 and
169 to 189) -/

/-- The shared mutable process state: current working directory and
environment variables. -/
structure PState where
  cwd : String
  env : String → Option String

/-- The outcome of a Python block: normal completion or a propagating
exception. -/
inductive PyResult (α : Type) where
  | ok (a : α)
  | exn (msg : String)

/-- Pointwise update of an environment. -/
def envUpdate (e : String → Option String) (k : String) (v : Option String) :
    String → Option String :=
  fun x => if x = k then v else e x

/-- The changedir context manager (setup.py lines 51 to 58): save the
cwd, chdir into path, run the body, and restore the saved cwd in a
finally clause, so restoration happens on the exception path as well. -/
def changedir {α : Type} (path : String)
    (body : PState → PyResult α × PState) (st : PState) :
    PyResult α × PState :=
  let save_dir := st.cwd
  let r := body { st with cwd := path }
  (r.1, { r.2 with cwd := save_dir })

/-- One loop iteration of set_compiler_envvars (setup.py lines 172 to
183) for variable var: returns the updated state and the accumulated
tmp_vars list.  A variable already in the environment is left alone,
except that CFLAGS has the CCSHARED sysconfig value appended in place;
a variable absent from the environment but present in sysconfig is
injected and recorded in tmp_vars. -/
def setupEnvVar (sysvars : String → Option String)
    (acc : PState × List String) (var : String) : PState × List String :=
  match acc.1.env var with
  | some val =>
      match sysvars "CCSHARED" with
      | some cs =>
          if var = "CFLAGS" then
            ({ acc.1 with env := envUpdate acc.1.env var (some (val ++ " " ++ cs)) },
             acc.2)
          else acc
      | none => acc
  | none =>
      match sysvars var with
      | some v =>
          let v2 := match sysvars "CCSHARED" with
                    | some cs => if var = "CFLAGS" then v ++ " " ++ cs else v
                    | none => v
          ({ acc.1 with env := envUpdate acc.1.env var (some v2) },
           acc.2 ++ [var])
      | none => acc

/-- The set_compiler_envvars context manager (setup.py lines 169 to
189): set up CC, CFLAGS and LDFLAGS, run the body, and in a finally
clause delete exactly the variables recorded in tmp_vars. -/
def set_compiler_envvars {α : Type} (sysvars : String → Option String)
    (body : PState → PyResult α × PState) (st : PState) :
    PyResult α × PState :=
  let setup := ["CC", "CFLAGS", "LDFLAGS"].foldl (setupEnvVar sysvars) (st, [])
  let r := body setup.1
  (r.1, { r.2 with env := setup.2.foldl (fun e v => envUpdate e v none) r.2.env })

/-! ## run_make_print_config (setup.py lines 80 to 90) -/

/-- Ordered-dict update (Python dict.update with a single pair). -/
def dictUpdate (d : List (String × String)) (k v : String) :
    List (String × String) :=
  if (d.lookup k).isSome then
    d.map (fun p => if p.1 = k then (p.1, v) else p)
  else d ++ [(k, v)]

/-- run_make_print_config (setup.py lines 80 to 90), with the make -s
print-config stdout given as its list of lines. -/
def run_make_print_config (outLines : List String) :
    List (String × String) :=
  outLines.foldl
    (fun d line =>
      if pyInStr "=" line then
        match pySplit '=' line with
        | [k, v] => dictUpdate d (pyStrip k) (pyStrip v)
        | _ => d
      else d)
    []

/-! ## prebuild_libchtslib (setup.py lines 595 to 609) -/

/-- format_macro_option (setup.py lines 192 to 193). -/
def format_macro_option (name : String) (value : Option String) : String :=
  match value with
  | some v => "-D" ++ name ++ "=" ++ v
  | none => "-D" ++ name

/-- The observable actions of one prebuild_libchtslib invocation. -/
structure PrebuildResult where
  headerWritten : Bool
  makeInvoked : Bool
  makeTargets : List String
  skipWarning : Bool
  deriving Repr, DecidableEq

/-- prebuild_libchtslib (setup.py lines 595 to 609): nothing happens
unless HTSLIB_MODE is shared or separate; otherwise the config_vars
header is written, and make lib-static runs exactly when the force flag
is set or htslib/libhts.a does not exist, else a skip warning is
logged. -/
def prebuild_libchtslib (htslib_mode : String) (ext : ExtDecl)
    (force : Bool) (libhtsExists : Bool) : PrebuildResult :=
  if htslib_mode = "shared" ∨ htslib_mode = "separate" then
    if force || !libhtsExists then
      let args := " ".intercalate ext.extra_compile_args
      let defines := " ".intercalate
        (ext.define_macros.map (fun pair => format_macro_option pair.1 pair.2))
      { headerWritten := true
        makeInvoked := true
        makeTargets := ["ALL_CPPFLAGS=-I. " ++ args ++ " " ++ defines ++
                          " $(CPPFLAGS)", "lib-static"]
        skipWarning := false }
    else
      { headerWritten := true, makeInvoked := false, makeTargets := []
        skipWarning := true }
  else
    { headerWritten := false, makeInvoked := false, makeTargets := []
      skipWarning := false }

/-! ## Top-level linking-mode resolution (setup.py lines 403 to 508) -/

/-- re.sub of a leading -l (setup.py line 476). -/
def stripDashL (x : String) : String :=
  if pyStartsWith "-l" x then pyDrop x 2 else x

/-- external_htslib_libraries as computed in the embedded block
(setup.py lines 473 to 476). -/
def embeddedLibs (mk : List (String × String)) : List String :=
  "z" :: (match mk.lookup "LIBS" with
          | some libs =>
              ((pySplit ' ' libs).filter (fun x => pyStrip x ≠ "")).map stripDashL
          | none => [])

/-- os.path.join for the two-argument uses in setup.py. -/
def osPathJoin (a b : String) : String :=
  if pyStartsWith "/" b then b
  else if pyEndsWith "/" a then a ++ b
  else a ++ "/" ++ b

/-- The external inputs of the top-level configuration code: the process
environment, and oracles for the configure script and the make -s
print-config output of the vendored htslib tree. -/
structure TopInputs where
  environ : String → Option String
  configureScriptExists : Bool
  configureOk : String → Bool
  makeOut : List String

/-- The three linking strategies of the specification, tagging which
branch of the arm at setup.py lines 478 to 508 ran. -/
inductive LinkMode where
  | external
  | separate
  | shared
  deriving Repr, DecidableEq

/-- The configuration produced by the top-level code: which branch ran,
whether configure_library was invoked, its result, whether the empty
htslib config.h was written (setup.py lines 459 to 463), and the
variables assigned in the branch arms (lines 478 to 508). -/
structure ResolvedConfig where
  linkMode : LinkMode
  configureInvoked : Bool
  configureResult : Option String
  emptyConfigHeaderWritten : Bool
  htslib_objects : List String
  separate_htslib_objects : List String
  htslib_library_dirs : List String
  htslib_include_dirs : List (Option String)
  external_htslib_libraries : List String
  deriving Repr, DecidableEq

/-- The htslib configure fallback options passed at setup.py
lines 452 to 453. -/
def fallbackOptions : List String :=
  ["--enable-libcurl", "--disable-libcurl"]

/-- The top-level linking-mode resolution (setup.py lines 403 to 508):
configure_library and the make print-config query run exactly when
HTSLIB_MODE is shared or separate (lines 444 to 476); afterwards the
branch on HTSLIB_LIBRARY_DIR truthiness and HTSLIB_MODE picks the
artifact lists (lines 478 to 508).  Errors model the propagated
ValueError for a missing configure script, the KeyError for a missing
LIBHTS_OBJS make variable, and the ValueError for an unknown mode. -/
def resolveTop (i : TopInputs) : Except String ResolvedConfig :=
  let mode := (i.environ "HTSLIB_MODE").getD "shared"
  let libdir := i.environ "HTSLIB_LIBRARY_DIR"
  let incdir := i.environ "HTSLIB_INCLUDE_DIR"
  let confopts := i.environ "HTSLIB_CONFIGURE_OPTIONS"
  let embedded : Bool := mode == "shared" || mode == "separate"
  let pre : Except String (Option (Option String) × List (String × String)) :=
    if embedded then
      match configure_library i.configureScriptExists
          (i.environ "READTHEDOCS" == some "True") i.configureOk confopts
          fallbackOptions with
      | .error e => .error e
      | .ok copts => .ok (some copts, run_make_print_config i.makeOut)
    else .ok (none, [])
  match pre with
  | .error e => .error e
  | .ok (coptsOpt, mk) =>
      if truthy libdir then
        .ok { linkMode := .external
              configureInvoked := embedded
              configureResult := coptsOpt.getD none
              emptyConfigHeaderWritten := decide (coptsOpt = some none)
              htslib_objects := []
              separate_htslib_objects := []
              htslib_library_dirs := [libdir.getD ""]
              htslib_include_dirs := [incdir]
              external_htslib_libraries := ["z", "hts"] }
      else if mode = "separate" then
        .ok { linkMode := .separate
              configureInvoked := embedded
              configureResult := coptsOpt.getD none
              emptyConfigHeaderWritten := decide (coptsOpt = some none)
              htslib_objects := ["htslib/libhts.a"]
              separate_htslib_objects := ["htslib/libhts.a"]
              htslib_library_dirs := []
              htslib_include_dirs := [some "htslib"]
              external_htslib_libraries := embeddedLibs mk }
      else if mode = "shared" then
        match mk.lookup "LIBHTS_OBJS" with
        | some objstr =>
            .ok { linkMode := .shared
                  configureInvoked := embedded
                  configureResult := coptsOpt.getD none
                  emptyConfigHeaderWritten := decide (coptsOpt = some none)
                  htslib_objects := (pySplit ' ' objstr).map (osPathJoin "htslib")
                  separate_htslib_objects := []
                  htslib_library_dirs := ["."]
                  htslib_include_dirs := [some "htslib"]
                  external_htslib_libraries := embeddedLibs mk }
        | none => .error "KeyError: LIBHTS_OBJS"
      else .error ("unknown HTSLIB value " ++ mode)

/-- A declared extension module: name and the extra_objects list
attached to it (setup.py lines 616 to 672). -/
structure ModuleDecl where
  name : String
  extra_objects : List String
  deriving Repr, DecidableEq

/-- The declarative module list (setup.py lines 616 to 672), keeping the
extra_objects assignment of each entry: libchtslib gets htslib_objects
and every other module gets separate_htslib_objects. -/
def modulesOf (cfg : ResolvedConfig) : List ModuleDecl :=
  [⟨"pysam.libchtslib", cfg.htslib_objects⟩,
   ⟨"pysam.libcsamtools", cfg.separate_htslib_objects⟩,
   ⟨"pysam.libcbcftools", cfg.separate_htslib_objects⟩,
   ⟨"pysam.libcutils", cfg.separate_htslib_objects⟩,
   ⟨"pysam.libcalignmentfile", cfg.separate_htslib_objects⟩,
   ⟨"pysam.libcsamfile", cfg.separate_htslib_objects⟩,
   ⟨"pysam.libcalignedsegment", cfg.separate_htslib_objects⟩,
   ⟨"pysam.libctabix", cfg.separate_htslib_objects⟩,
   ⟨"pysam.libcfaidx", cfg.separate_htslib_objects⟩,
   ⟨"pysam.libcbcf", cfg.separate_htslib_objects⟩,
   ⟨"pysam.libcbgzf", cfg.separate_htslib_objects⟩,
   ⟨"pysam.libctabixproxies", cfg.separate_htslib_objects⟩,
   ⟨"pysam.libcvcf", cfg.separate_htslib_objects⟩]

/-! ## Theorems -/

/-- Characterization of every successful run of the top-level
configuration code, by case analysis on its branches. -/
theorem resolveTop_char (i : TopInputs) (cfg : ResolvedConfig)
    (h : resolveTop i = .ok cfg) :
    cfg.configureInvoked =
      (((i.environ "HTSLIB_MODE").getD "shared" == "shared") ||
        ((i.environ "HTSLIB_MODE").getD "shared" == "separate")) ∧
    cfg.emptyConfigHeaderWritten =
      (cfg.configureInvoked && decide (cfg.configureResult = none)) ∧
    (cfg.configureInvoked = true →
      configure_library i.configureScriptExists
        (i.environ "READTHEDOCS" == some "True") i.configureOk
        (i.environ "HTSLIB_CONFIGURE_OPTIONS") fallbackOptions =
          .ok cfg.configureResult) ∧
    (cfg.configureInvoked = false → cfg.configureResult = none) ∧
    (cfg.linkMode = .external ↔ truthy (i.environ "HTSLIB_LIBRARY_DIR") = true) ∧
    (cfg.linkMode = .external →
      cfg.htslib_objects = [] ∧ cfg.separate_htslib_objects = [] ∧
      cfg.htslib_library_dirs = [(i.environ "HTSLIB_LIBRARY_DIR").getD ""] ∧
      cfg.htslib_include_dirs = [i.environ "HTSLIB_INCLUDE_DIR"] ∧
      cfg.external_htslib_libraries = ["z", "hts"]) ∧
    (cfg.linkMode = .separate →
      (i.environ "HTSLIB_MODE").getD "shared" = "separate" ∧
      cfg.htslib_objects = ["htslib/libhts.a"] ∧
      cfg.separate_htslib_objects = ["htslib/libhts.a"]) ∧
    (cfg.linkMode = .shared →
      (i.environ "HTSLIB_MODE").getD "shared" = "shared" ∧
      cfg.separate_htslib_objects = [] ∧
      ∃ objstr, (run_make_print_config i.makeOut).lookup "LIBHTS_OBJS" = some objstr ∧
        cfg.htslib_objects = (pySplit ' ' objstr).map (osPathJoin "htslib")) := by
  unfold resolveTop at h
  simp only at h
  split at h
  next e heq => exact absurd h (by simp)
  next coptsOpt mk heq =>
    split at heq
    · next hemb =>
      split at heq
      next e2 heq2 => exact absurd heq (by simp)
      next copts heq2 =>
        simp only [Except.ok.injEq, Prod.mk.injEq] at heq
        obtain ⟨hc, hm⟩ := heq
        subst hc
        subst hm
        split at h
        · next htr =>
          cases h
          simp_all <;> tauto
        · next htr =>
          split at h
          · next hsep =>
            cases h
            simp_all <;> tauto
          · next hsep =>
            split at h
            · next hsh =>
              split at h
              next objstr heqL =>
                cases h
                refine ⟨?_, ?_, ?_, ?_, ?_, ?_, ?_, ?_⟩ <;> simp_all <;> tauto
              next heqL => exact absurd h (by simp)
            · next hsh => exact absurd h (by simp)
    · next hemb =>
      simp only [Except.ok.injEq, Prod.mk.injEq] at heq
      obtain ⟨hc, hm⟩ := heq
      subst hc
      subst hm
      split at h
      · next htr =>
        cases h
        simp_all
      · next htr =>
        split at h
        · next hsep =>
          simp [hsep] at hemb
        · next hsep =>
          split at h
          · next hsh =>
            simp [hsh] at hemb
          · next hsh => exact absurd h (by simp)

/-- C3: when configuring the vendored library, the user-supplied option
is tried first; if it fails or is absent, the fixed fallback options are
tried in order and the first that succeeds is returned; if every attempt
fails, configure_library returns no option without raising, and the
resolver then writes the minimal always-valid config header (the
emptyConfigHeaderWritten flag is set exactly when configure ran and
accepted no option). -/
theorem C3_configure_fallback (ok : String → Bool) (envOpt : Option String)
    (options : List String) :
    (∀ e, envOpt = some e → ok e = true →
       configure_library true false ok envOpt options = .ok (some e)) ∧
    (∀ e, envOpt = some e → ok e = false →
       configure_library true false ok envOpt options = .ok (options.find? ok)) ∧
    (envOpt = none →
       configure_library true false ok envOpt options = .ok (options.find? ok)) ∧
    (∀ o os, options = o :: os → ok o = true → options.find? ok = some o) ∧
    (∀ o os, options = o :: os → ok o = false → options.find? ok = os.find? ok) ∧
    ((∀ o, ok o = false) →
       configure_library true false ok envOpt options = .ok none) ∧
    (∀ (i : TopInputs) (cfg : ResolvedConfig), resolveTop i = .ok cfg →
       cfg.emptyConfigHeaderWritten =
         (cfg.configureInvoked && decide (cfg.configureResult = none))) := by
  refine ⟨?_, ?_, ?_, ?_, ?_, ?_, ?_⟩
  · intro e he hok
    simp [configure_library, he, hok]
  · intro e he hok
    simp [configure_library, he, hok]
  · intro he
    simp [configure_library, he]
  · intro o os ho hok
    simp [ho, List.find?, hok]
  · intro o os ho hok
    simp [ho, List.find?, hok]
  · intro hall
    have hfind : options.find? ok = none := by
      apply List.find?_eq_none.mpr
      intro o _
      simp [hall o]
    cases envOpt with
    | none => simp [configure_library, hfind]
    | some e => simp [configure_library, hall e, hfind]
  · intro i cfg h
    exact (resolveTop_char i cfg h).2.1

/-- C3 witness: a user option that fails while the second fallback
succeeds yields the second fallback option. -/
theorem C3_configure_fallback_witness :
    configure_library true false (fun o => o == "--disable-libcurl")
      (some "--user-option") fallbackOptions = .ok (some "--disable-libcurl") := by
  have h := (C3_configure_fallback (fun o => o == "--disable-libcurl")
    (some "--user-option") fallbackOptions).2.1 "--user-option" rfl (by decide)
  rw [h]
  rfl

/-- C4: in the merged compiler configuration, an environment override
for a flag variable always appears in the merged flag list even when a
sysconfig platform default for the same variable exists, and it appears
after the platform default, so it takes precedence in compiler
semantics: this is proven for CFLAGS and LDFLAGS; for CPPFLAGS the
sysconfig default is ignored entirely, so the environment override is
first and trivially wins; the CC environment override wins outright
over the platform default.  The declared per-module flags and options
of the extension (extra_compile_args, extra_link_args, and the
include/define/undef options) are appended after the merged base flags,
never replacing them, and each flags field is the space-join of exactly
its component list. -/
theorem C4_compiler_config_merge (environ sysvars : String → Option String)
    (ext : ExtDecl) :
    (∀ e, environ "CFLAGS" = some e → e ∈ cflagsList environ sysvars ext) ∧
    (∀ e d, environ "CFLAGS" = some e → sysvars "CFLAGS" = some d →
       ∃ tail, cflagsList environ sysvars ext = d :: e :: tail) ∧
    (∀ c, environ "CC" = some c → (build_config_dict environ sysvars ext).CC = c) ∧
    (cflagsList environ sysvars ext =
       cflagsList environ sysvars { ext with extra_compile_args := [] } ++
         ext.extra_compile_args) ∧
    ((build_config_dict environ sysvars ext).CFLAGS =
       " ".intercalate (cflagsList environ sysvars ext)) ∧
    (∀ e, environ "LDFLAGS" = some e → e ∈ ldflagsList environ sysvars ext) ∧
    (∀ e d, environ "LDFLAGS" = some e → sysvars "LDFLAGS" = some d →
       ∃ tail, ldflagsList environ sysvars ext = d :: e :: tail) ∧
    (ldflagsList environ sysvars ext =
       ldflagsList environ sysvars { ext with extra_link_args := [] } ++
         ext.extra_link_args) ∧
    ((build_config_dict environ sysvars ext).LDFLAGS =
       " ".intercalate (ldflagsList environ sysvars ext)) ∧
    (∀ e, environ "CPPFLAGS" = some e →
       ∃ tail, cppflagsList environ ext = e :: tail) ∧
    (∀ sysvars2 : String → Option String,
       (build_config_dict environ sysvars ext).CPPFLAGS =
         (build_config_dict environ sysvars2 ext).CPPFLAGS) ∧
    (cppflagsList environ ext =
       cppflagsList environ
           { ext with include_dirs := [], define_macros := [],
                      undef_macros := [] } ++
         (optionise "-I" ext.include_dirs ++
           optionise "-D" (kvtuples ext.define_macros) ++
           optionise "-U" ext.undef_macros)) ∧
    ((build_config_dict environ sysvars ext).CPPFLAGS =
       " ".intercalate (cppflagsList environ ext)) := by
  refine ⟨?_, ?_, ?_, ?_, rfl, ?_, ?_, ?_, rfl, ?_, fun _ => rfl, ?_, rfl⟩
  · intro e he
    simp [cflagsList, envList, he]
  · intro e d he hd
    refine ⟨scList sysvars "CCSHARED" ++ ext.extra_compile_args, ?_⟩
    simp [cflagsList, envList, scList, he, hd]
  · intro c hc
    simp [build_config_dict, envList, hc]
  · simp [cflagsList]
  · intro e he
    simp [ldflagsList, envList, he]
  · intro e d he hd
    refine ⟨envList environ "CFLAGS" ++ optionise "-L" ext.library_dirs ++
      ext.extra_link_args, ?_⟩
    simp [ldflagsList, envList, scList, he, hd]
  · simp [ldflagsList]
  · intro e he
    refine ⟨optionise "-I" ext.include_dirs ++
      optionise "-D" (kvtuples ext.define_macros) ++
      optionise "-U" ext.undef_macros, ?_⟩
    simp [cppflagsList, envList, he]
  · simp [cppflagsList, optionise, kvtuples]

/-- C4 witness at a concrete environment, sysconfig and extension,
exercising the CFLAGS, CC, LDFLAGS and CPPFLAGS merge facts. -/
theorem C4_compiler_config_merge_witness :
    (∃ tail, cflagsList
        (fun v => if v = "CFLAGS" then some "-O2"
                  else if v = "CC" then some "clang"
                  else if v = "LDFLAGS" then some "-Lenv"
                  else if v = "CPPFLAGS" then some "-DENV" else none)
        (fun v => if v = "CFLAGS" then some "-g"
                  else if v = "CCSHARED" then some "-fPIC"
                  else if v = "LDFLAGS" then some "-Lsys" else none)
        ⟨[], [], [], ["-Wno-unused"], [], ["-Wl,-x"], []⟩ =
        "-g" :: "-O2" :: tail) ∧
    (build_config_dict
        (fun v => if v = "CFLAGS" then some "-O2"
                  else if v = "CC" then some "clang"
                  else if v = "LDFLAGS" then some "-Lenv"
                  else if v = "CPPFLAGS" then some "-DENV" else none)
        (fun v => if v = "CFLAGS" then some "-g"
                  else if v = "CCSHARED" then some "-fPIC"
                  else if v = "LDFLAGS" then some "-Lsys" else none)
        ⟨[], [], [], ["-Wno-unused"], [], ["-Wl,-x"], []⟩).CC = "clang" ∧
    (∃ tail, ldflagsList
        (fun v => if v = "CFLAGS" then some "-O2"
                  else if v = "CC" then some "clang"
                  else if v = "LDFLAGS" then some "-Lenv"
                  else if v = "CPPFLAGS" then some "-DENV" else none)
        (fun v => if v = "CFLAGS" then some "-g"
                  else if v = "CCSHARED" then some "-fPIC"
                  else if v = "LDFLAGS" then some "-Lsys" else none)
        ⟨[], [], [], ["-Wno-unused"], [], ["-Wl,-x"], []⟩ =
        "-Lsys" :: "-Lenv" :: tail) ∧
    (∃ tail, cppflagsList
        (fun v => if v = "CFLAGS" then some "-O2"
                  else if v = "CC" then some "clang"
                  else if v = "LDFLAGS" then some "-Lenv"
                  else if v = "CPPFLAGS" then some "-DENV" else none)
        ⟨[], [], [], ["-Wno-unused"], [], ["-Wl,-x"], []⟩ =
        "-DENV" :: tail) := by
  obtain ⟨c1, c2, c3, c4, c5, c6, c7, c8, c9, c10, c11, c12, c13⟩ :=
    C4_compiler_config_merge
      (fun v => if v = "CFLAGS" then some "-O2"
                else if v = "CC" then some "clang"
                else if v = "LDFLAGS" then some "-Lenv"
                else if v = "CPPFLAGS" then some "-DENV" else none)
      (fun v => if v = "CFLAGS" then some "-g"
                else if v = "CCSHARED" then some "-fPIC"
                else if v = "LDFLAGS" then some "-Lsys" else none)
      ⟨[], [], [], ["-Wno-unused"], [], ["-Wl,-x"], []⟩
  exact ⟨c2 "-O2" "-g" rfl rfl, c3 "clang" rfl, c7 "-Lenv" "-Lsys" rfl rfl,
    c10 "-DENV" rfl⟩

/-- C5: the compiler feature probe tries, in this fixed order, a trivial
compile with no extra flags, then with -std=c99, then with -std=gnu99,
and adopts the first that succeeds; and a cy_build_ext run contains
exactly one probe event, with each module compiled afterwards against
the probe result rather than re-probing. -/
theorem C5_c99_probe (compileOk : Option (List String) → Bool)
    (moduleNames : List String) :
    (compileOk none = true → c99_compile_args compileOk = none) ∧
    (compileOk none = false → compileOk (some ["-std=c99"]) = true →
       c99_compile_args compileOk = some ["-std=c99"]) ∧
    (compileOk none = false → compileOk (some ["-std=c99"]) = false →
       compileOk (some ["-std=gnu99"]) = true →
       c99_compile_args compileOk = some ["-std=gnu99"]) ∧
    ((build_extensions_events moduleNames).count .probe = 1) := by
  refine ⟨?_, ?_, ?_, ?_⟩
  · intro h1
    simp [c99_compile_args, probeSequence, List.find?, h1]
  · intro h1 h2
    simp [c99_compile_args, probeSequence, List.find?, h1, h2]
  · intro h1 h2 h3
    simp [c99_compile_args, probeSequence, List.find?, h1, h2, h3]
  · have hnm : BuildEvent.probe ∉ moduleNames.map BuildEvent.compileModule := by
      simp
    simp [build_extensions_events, List.count_cons, List.count_eq_zero.mpr hnm]

/-- C5 witness: a compiler accepting only -std=c99 makes the probe adopt
that flag, and a one-module run still has a single probe event. -/
theorem C5_c99_probe_witness :
    c99_compile_args (fun f => decide (f = some ["-std=c99"])) =
      some ["-std=c99"] ∧
    (build_extensions_events ["pysam.libchtslib"]).count .probe = 1 := by
  have h := C5_c99_probe (fun f => decide (f = some ["-std=c99"]))
    ["pysam.libchtslib"]
  exact ⟨h.2.1 (by decide) (by decide), h.2.2.2⟩

/-- C10: if all three feature-probe compile attempts fail, the probe
returns no flags and does not raise, and the compiler executables are
left unchanged, so compilation of the modules proceeds with the
unmodified compiler (build_extensions returns normally). -/
theorem C10_probe_total_failure (compileOk : Option (List String) → Bool)
    (cc : CompilerExecutables) (h : ∀ f, compileOk f = false) :
    c99_compile_args compileOk = none ∧ build_extensions compileOk cc = cc := by
  have hfind : probeSequence.find? compileOk = none :=
    List.find?_eq_none.mpr (fun o _ => by simp [h o])
  constructor
  · simp [c99_compile_args, hfind]
  · simp [build_extensions, c99_compile_args, hfind]

/-- C10 witness: a compiler failing every probe leaves the executables
untouched. -/
theorem C10_probe_total_failure_witness :
    build_extensions (fun _ => false)
      ⟨.lst ["cc"], .lst ["cc", "-shared"]⟩ = ⟨.lst ["cc"], .lst ["cc", "-shared"]⟩ := by
  exact (C10_probe_total_failure (fun _ => false)
    ⟨.lst ["cc"], .lst ["cc", "-shared"]⟩ (fun _ => rfl)).2

/-- C9 counterexample: with both external directories supplied and
HTSLIB_MODE left at its default, the resolved LinkMode is External (so
no compiled artifacts are required), yet the pre-build hook, which tests
HTSLIB_MODE rather than the resolved LinkMode, still invokes the
vendored make build when libhts.a is absent.  This refutes the claimed
equivalence between build invocation and the active LinkMode requiring
compiled artifacts. -/
theorem C9_counterexample :
    ∃ cfg, resolveTop
        ⟨fun v => if v = "HTSLIB_LIBRARY_DIR" then some "/opt/htslib/lib"
                  else if v = "HTSLIB_INCLUDE_DIR" then some "/opt/htslib/include"
                  else none,
         true, fun _ => true, []⟩ = .ok cfg ∧
      cfg.linkMode = .external ∧
      ((fun v => if v = "HTSLIB_LIBRARY_DIR" then some "/opt/htslib/lib"
                 else if v = "HTSLIB_INCLUDE_DIR" then some "/opt/htslib/include"
                 else none : String → Option String) "HTSLIB_MODE").getD "shared"
        = "shared" ∧
      (prebuild_libchtslib "shared" ⟨[], [], [], [], [], [], []⟩ false false).makeInvoked
        = true := by
  exact ⟨_, rfl, rfl, rfl, rfl⟩

/-- C9 amended: the pre-build hook invokes the vendored build (with the
lib-static target and the augmented ALL_CPPFLAGS variable) iff the
requested HTSLIB_MODE is shared or separate, irrespective of the
resolved LinkMode, and additionally the forced-rebuild flag is set or
the artifact does not exist; when the artifact exists and rebuild is not
forced it skips with a non-error warning message and returns normally. -/
theorem C9_prebuild_hook (mode : String) (ext : ExtDecl)
    (force libhtsExists : Bool) :
    ((prebuild_libchtslib mode ext force libhtsExists).makeInvoked = true ↔
       ((mode = "shared" ∨ mode = "separate") ∧
         (force = true ∨ libhtsExists = false))) ∧
    ((mode = "shared" ∨ mode = "separate") → force = false → libhtsExists = true →
       prebuild_libchtslib mode ext force libhtsExists =
         { headerWritten := true, makeInvoked := false, makeTargets := [],
           skipWarning := true }) ∧
    ((prebuild_libchtslib mode ext force libhtsExists).makeInvoked = true →
       (prebuild_libchtslib mode ext force libhtsExists).makeTargets =
         ["ALL_CPPFLAGS=-I. " ++ " ".intercalate ext.extra_compile_args ++ " " ++
            " ".intercalate (ext.define_macros.map fun pair =>
              format_macro_option pair.1 pair.2) ++ " $(CPPFLAGS)",
          "lib-static"]) := by
  cases force <;> cases libhtsExists <;> simp only [prebuild_libchtslib] <;>
    split_ifs with h1 <;> simp_all <;> tauto

/-- C9 witness: in shared mode with the archive present and no forced
rebuild, the hook skips the build with a warning and still writes the
config-vars header. -/
theorem C9_prebuild_hook_witness :
    prebuild_libchtslib "shared" ⟨[], [], [], [], [], [], []⟩ false true =
      { headerWritten := true, makeInvoked := false, makeTargets := [],
        skipWarning := true } :=
  (C9_prebuild_hook "shared" ⟨[], [], [], [], [], [], []⟩ false true).2.1
    (Or.inl rfl) rfl rfl

/-- C1 counterexample: first, with both external directories supplied
but HTSLIB_MODE at its default, External linking is selected and yet
configure of the vendored library still runs, refuting the claim that
no configure or build step is executed; second, External linking is
also selected when only the library directory is supplied, refuting the
claim that External is selected only when both directories are
supplied. -/
theorem C1_counterexample :
    (∃ cfg, resolveTop
        ⟨fun v => if v = "HTSLIB_LIBRARY_DIR" then some "/opt/htslib/lib"
                  else if v = "HTSLIB_INCLUDE_DIR" then some "/opt/htslib/include"
                  else none,
         true, fun _ => true, []⟩ = .ok cfg ∧
       cfg.linkMode = .external ∧ cfg.configureInvoked = true) ∧
    (∃ cfg, resolveTop
        ⟨fun v => if v = "HTSLIB_LIBRARY_DIR" then some "/opt/htslib/lib"
                  else none,
         true, fun _ => true, []⟩ = .ok cfg ∧
       cfg.linkMode = .external ∧ cfg.htslib_include_dirs = [none]) := by
  exact ⟨⟨_, rfl, rfl, rfl⟩, ⟨_, rfl, rfl, rfl⟩⟩

/-- C1 amended: External linking is selected iff the external library
directory input is truthy (the include directory is not consulted for
the selection); when selected, the two directory inputs are recorded
verbatim as the library/include search paths and no extra objects are
attached; configure of the vendored library is invoked iff the
requested HTSLIB_MODE is shared or separate, independent of the
directory inputs, and likewise the vendored make build runs only in
those modes. -/
theorem C1_external_linking (i : TopInputs) (cfg : ResolvedConfig)
    (h : resolveTop i = .ok cfg) :
    (cfg.linkMode = .external ↔ truthy (i.environ "HTSLIB_LIBRARY_DIR") = true) ∧
    (cfg.linkMode = .external →
       cfg.htslib_library_dirs = [(i.environ "HTSLIB_LIBRARY_DIR").getD ""] ∧
       cfg.htslib_include_dirs = [i.environ "HTSLIB_INCLUDE_DIR"] ∧
       cfg.htslib_objects = [] ∧ cfg.separate_htslib_objects = []) ∧
    (cfg.configureInvoked =
       (((i.environ "HTSLIB_MODE").getD "shared" == "shared") ||
         ((i.environ "HTSLIB_MODE").getD "shared" == "separate"))) ∧
    (∀ ext force ex,
       (prebuild_libchtslib ((i.environ "HTSLIB_MODE").getD "shared")
           ext force ex).makeInvoked = true →
         ((i.environ "HTSLIB_MODE").getD "shared" = "shared" ∨
           (i.environ "HTSLIB_MODE").getD "shared" = "separate")) := by
  obtain ⟨hinv, -, -, -, hiff, hext, -, -⟩ := resolveTop_char i cfg h
  refine ⟨hiff, ?_, hinv, ?_⟩
  · intro hl
    obtain ⟨h1, h2, h3, h4, -⟩ := hext hl
    exact ⟨h3, h4, h1, h2⟩
  · intro ext force ex hmk
    revert hmk
    simp only [prebuild_libchtslib]
    split_ifs with h1 h2 <;> simp_all

/-- C1 witness: with both directories supplied and HTSLIB_MODE set to
external, External linking is selected, the directories are recorded,
and configure is not invoked. -/
theorem C1_external_linking_witness :
    ∃ cfg, resolveTop
        ⟨fun v => if v = "HTSLIB_MODE" then some "external"
                  else if v = "HTSLIB_LIBRARY_DIR" then some "/opt/htslib/lib"
                  else if v = "HTSLIB_INCLUDE_DIR" then some "/opt/htslib/include"
                  else none,
         true, fun _ => true, []⟩ = .ok cfg ∧
      cfg.linkMode = .external ∧
      cfg.htslib_library_dirs = ["/opt/htslib/lib"] ∧
      cfg.htslib_include_dirs = [some "/opt/htslib/include"] ∧
      cfg.configureInvoked = false := by
  have h := C1_external_linking
    ⟨fun v => if v = "HTSLIB_MODE" then some "external"
              else if v = "HTSLIB_LIBRARY_DIR" then some "/opt/htslib/lib"
              else if v = "HTSLIB_INCLUDE_DIR" then some "/opt/htslib/include"
              else none,
     true, fun _ => true, []⟩ _ rfl
  have hlm := h.1.mpr rfl
  obtain ⟨h1, h2, -, -⟩ := h.2.1 hlm
  exact ⟨_, rfl, hlm, by simpa using h1, by simpa using h2, by simpa using h.2.2.1⟩

/-- Every entry of the declared module list carries either the
htslib_objects list (the foundational module) or the
separate_htslib_objects list (every other module). -/
theorem modulesOf_extra (cfg : ResolvedConfig) :
    ∀ m ∈ modulesOf cfg, m.extra_objects = cfg.htslib_objects ∨
      m.extra_objects = cfg.separate_htslib_objects := by
  intro m hm
  simp [modulesOf] at hm
  rcases hm with rfl | rfl | rfl | rfl | rfl | rfl | rfl | rfl | rfl | rfl |
    rfl | rfl | rfl <;> simp

/-- Every non-head entry of the declared module list carries the
separate_htslib_objects list. -/
theorem modulesOf_tail_extra (cfg : ResolvedConfig) :
    ∀ m ∈ (modulesOf cfg).tail, m.extra_objects = cfg.separate_htslib_objects := by
  intro m hm
  simp [modulesOf] at hm
  rcases hm with rfl | rfl | rfl | rfl | rfl | rfl | rfl | rfl | rfl | rfl |
    rfl | rfl <;> simp

/-- C2: the artifact set attached to modules matches the mode contract:
in separate mode the static archive path is attached to the
extra-objects list of every module; in shared mode the extra-objects
list of the foundational module is exactly the per-object output-file
list of the vendored build (from the LIBHTS_OBJS make variable, not the
archive) and every other module gets none; in external mode the
extra-objects list of every module is empty. -/
theorem C2_artifact_sets (i : TopInputs) (cfg : ResolvedConfig)
    (h : resolveTop i = .ok cfg) :
    (cfg.linkMode = .separate →
       ∀ m ∈ modulesOf cfg, m.extra_objects = ["htslib/libhts.a"]) ∧
    (cfg.linkMode = .shared →
       (modulesOf cfg).head? = some ⟨"pysam.libchtslib", cfg.htslib_objects⟩ ∧
       (∃ objstr,
          (run_make_print_config i.makeOut).lookup "LIBHTS_OBJS" = some objstr ∧
          cfg.htslib_objects = (pySplit ' ' objstr).map (osPathJoin "htslib")) ∧
       (∀ m ∈ (modulesOf cfg).tail, m.extra_objects = [])) ∧
    (cfg.linkMode = .external → ∀ m ∈ modulesOf cfg, m.extra_objects = []) := by
  obtain ⟨-, -, -, -, -, hext, hsep, hsh⟩ := resolveTop_char i cfg h
  refine ⟨?_, ?_, ?_⟩
  · intro hl m hm
    obtain ⟨-, ho, hso⟩ := hsep hl
    rcases modulesOf_extra cfg m hm with he | he <;> rw [he] <;> assumption
  · intro hl
    obtain ⟨-, hso, hobj⟩ := hsh hl
    refine ⟨by simp [modulesOf], hobj, ?_⟩
    intro m hm
    rw [modulesOf_tail_extra cfg m hm, hso]
  · intro hl
    obtain ⟨ho, hso, -, -, -⟩ := hext hl
    intro m hm
    rcases modulesOf_extra cfg m hm with he | he <;> rw [he] <;> assumption

/-- C2 witness: a default shared-mode run attaches the two make-reported
object files to the foundational module and nothing to the others. -/
theorem C2_artifact_sets_witness :
    ∃ cfg, resolveTop
        ⟨fun _ => none, true, fun _ => true, ["LIBHTS_OBJS = a.o b.o"]⟩ = .ok cfg ∧
      (modulesOf cfg).head? =
        some ⟨"pysam.libchtslib", ["htslib/a.o", "htslib/b.o"]⟩ ∧
      ∀ m ∈ (modulesOf cfg).tail, m.extra_objects = [] := by
  have h := C2_artifact_sets
    ⟨fun _ => none, true, fun _ => true, ["LIBHTS_OBJS = a.o b.o"]⟩
    { linkMode := .shared,
      configureInvoked := true,
      configureResult := some "--enable-libcurl",
      emptyConfigHeaderWritten := false,
      htslib_objects := ["htslib/a.o", "htslib/b.o"],
      separate_htslib_objects := [],
      htslib_library_dirs := ["."],
      htslib_include_dirs := [some "htslib"],
      external_htslib_libraries := ["z"] } rfl
  obtain ⟨hh, -, ht⟩ := h.2.1 rfl
  exact ⟨_, rfl, hh, ht⟩

/-- A symbol present after processing one nm line was already present or
comes from a line with at least two fields whose type field is not
undefined/weak/file/debug, transformed by the platform rule. -/
theorem nmStep_mem (isDarwin : Bool) (acc : Finset String)
    (fields : List String) (out : Finset String)
    (h : nmStep isDarwin acc fields = some out) :
    ∀ s ∈ out, s ∈ acc ∨ ∃ sym symtype rest, fields = sym :: symtype :: rest ∧
      pyInStr symtype "UFNWw" = false ∧
      ((isDarwin = true ∧ s = (if pyStartsWith "_" sym then pyDrop sym 1 else sym)) ∨
       (isDarwin = false ∧ s = sym ∧
         "_$.@".toList.contains (sym.toList.headD ' ') = false)) := by
  intro s hs
  rcases fields with _ | ⟨sym, _ | ⟨symtype, rest⟩⟩
  · simp [nmStep] at h
  · simp [nmStep] at h
  · simp only [nmStep, Option.some.injEq] at h
    subst h
    by_cases hw : pyInStr symtype "UFNWw" = true
    · rw [if_pos hw] at hs
      exact Or.inl hs
    · rw [if_neg hw] at hs
      cases hD : isDarwin
      · rw [hD] at hs
        rw [if_neg (by simp)] at hs
        by_cases hr : "_$.@".toList.contains (sym.toList.headD ' ') = true
        · rw [if_pos hr] at hs
          exact Or.inl hs
        · rw [if_neg hr] at hs
          rcases Finset.mem_insert.mp hs with hseq | hs
          · exact Or.inr ⟨sym, symtype, rest, rfl, by simpa using hw,
              Or.inr ⟨rfl, hseq, by simpa using hr⟩⟩
          · exact Or.inl hs
      · rw [hD] at hs
        rw [if_pos rfl] at hs
        rcases Finset.mem_insert.mp hs with hseq | hs
        · exact Or.inr ⟨sym, symtype, rest, rfl, by simpa using hw,
            Or.inl ⟨rfl, hseq⟩⟩
        · exact Or.inl hs

/-- Fold version of nmStep_mem over a list of nm output lines. -/
theorem run_nm_fold_mem (isDarwin : Bool) (lines : List String) :
    ∀ (acc res : Finset String),
      lines.foldlM (fun acc line => nmStep isDarwin acc (pyWords line)) acc =
        some res →
      ∀ s ∈ res, s ∈ acc ∨ ∃ line ∈ lines, ∃ sym symtype rest,
        pyWords line = sym :: symtype :: rest ∧
        pyInStr symtype "UFNWw" = false ∧
        ((isDarwin = true ∧ s = (if pyStartsWith "_" sym then pyDrop sym 1 else sym)) ∨
         (isDarwin = false ∧ s = sym ∧
           "_$.@".toList.contains (sym.toList.headD ' ') = false)) := by
  induction lines with
  | nil =>
    intro acc res h s hs
    simp only [List.foldlM_nil, Option.pure_def, Option.some.injEq] at h
    subst h
    exact Or.inl hs
  | cons line rest ih =>
    intro acc res h s hs
    rw [List.foldlM_cons] at h
    cases hstep : nmStep isDarwin acc (pyWords line) with
    | none => rw [hstep] at h; simp at h
    | some acc2 =>
      rw [hstep] at h
      simp only [Option.bind_eq_bind, Option.some_bind] at h
      rcases ih acc2 res h s hs with hmem | ⟨l, hl, w⟩
      · rcases nmStep_mem isDarwin acc (pyWords line) acc2 hstep s hmem with
          hmem2 | ⟨sym, symtype, r, hw⟩
        · exact Or.inl hmem2
        · exact Or.inr ⟨line, List.mem_cons_self line rest,
            sym, symtype, r, hw⟩
      · exact Or.inr ⟨l, List.mem_cons_of_mem line hl, w⟩

/-- C7 counterexample: on the Darwin platform family a symbol beginning
with the reserved character $ is extracted rather than ignored (only a
leading underscore is stripped there); the reserved-character filter of
setup.py line 105 runs only on the non-Darwin branch.  This refutes the
claim that symbols beginning with the implementation-reserved characters
are ignored on every platform. -/
theorem C7_counterexample :
    run_nm_defined_symbols true ["$foo T"] = some {"$foo"} ∧
    "$foo" ∈ ({"$foo"} : Finset String) ∧
    "_$.@".toList.contains ("$foo".toList.headD ' ') = true ∧
    run_nm_defined_symbols false ["$foo T"] = some ∅ := by
  refine ⟨rfl, by decide, by decide, rfl⟩

/-- C7 amended: every extracted symbol comes from an nm line with at
least two fields whose symbol-type field is not in the
undefined/file/debug/weak set UFNWw; on Darwin a leading underscore is
stripped from the symbol name, while only on non-Darwin platforms are
symbols whose first character lies in the reserved set ignored; the
Cython workaround symbol is always removed. -/
theorem C7_nm_symbol_extraction (isDarwin : Bool) (outLines : List String)
    (syms : Finset String)
    (h : run_nm_defined_symbols isDarwin outLines = some syms) :
    ∀ s ∈ syms, s ≠ "__pyx_CommonTypesMetaclass_get_module" ∧
      ∃ line ∈ outLines, ∃ sym symtype rest,
        pyWords line = sym :: symtype :: rest ∧
        pyInStr symtype "UFNWw" = false ∧
        ((isDarwin = true ∧ s = (if pyStartsWith "_" sym then pyDrop sym 1 else sym)) ∨
         (isDarwin = false ∧ s = sym ∧
           "_$.@".toList.contains (sym.toList.headD ' ') = false)) := by
  intro s hs
  unfold run_nm_defined_symbols at h
  cases hfold : outLines.foldlM
      (fun acc line => nmStep isDarwin acc (pyWords line)) ∅ with
  | none =>
    rw [hfold] at h
    exact Option.noConfusion h
  | some r =>
    rw [hfold] at h
    have h2 := Option.some.inj h
    subst h2
    obtain ⟨hne, hmem⟩ := Finset.mem_erase.mp hs
    refine ⟨hne, ?_⟩
    rcases run_nm_fold_mem isDarwin outLines ∅ r hfold s hmem with hemp | hg
    · exact absurd hemp (Finset.not_mem_empty s)
    · exact hg

/-- C7 witness: a non-Darwin extraction of a defined symbol, with the
amended theorem applied to it. -/
theorem C7_nm_symbol_extraction_witness :
    run_nm_defined_symbols false ["hts_open T", "bar U"] = some {"hts_open"} ∧
    ∀ s ∈ ({"hts_open"} : Finset String),
      s ≠ "__pyx_CommonTypesMetaclass_get_module" :=
  ⟨rfl, fun s hs =>
    (C7_nm_symbol_extraction false ["hts_open T", "bar U"] {"hts_open"} rfl
      s hs).1⟩

/-- Lookup after one dict insertion: the inserted key gains the owner at
the end of its list, every other key is unchanged. -/
theorem lookup_addSym (d : List (String × List String)) (sym owner k : String) :
    (addSym d sym owner).lookup k =
      if k = sym then some (((d.lookup sym).getD []) ++ [owner])
      else d.lookup k := by
  induction d with
  | nil =>
    by_cases hk : k = sym
    · subst hk
      simp [addSym, List.lookup]
    · have hkb : (k == sym) = false := beq_eq_false_iff_ne.mpr hk
      simp [addSym, List.lookup, hkb, hk]
  | cons p rest ih =>
    rcases p with ⟨a, b⟩
    by_cases hp : a = sym
    · subst hp
      by_cases hk : k = a
      · subst hk
        simp [addSym, List.lookup]
      · have hkb : (k == a) = false := beq_eq_false_iff_ne.mpr hk
        simp [addSym, List.lookup, hkb, hk]
    · have hpb : (sym == a) = false :=
        beq_eq_false_iff_ne.mpr (fun hc => hp hc.symm)
      have haddc : addSym ((a, b) :: rest) sym owner =
          (a, b) :: addSym rest sym owner := by
        simp [addSym, hp]
      by_cases hk : k = a
      · subst hk
        have hks : ¬(k = sym) := hp
        simp [haddc, List.lookup, hks]
      · have hkb : (k == a) = false := beq_eq_false_iff_ne.mpr hk
        rw [haddc]
        have hl1 : List.lookup k ((a, b) :: addSym rest sym owner) =
            List.lookup k (addSym rest sym owner) := by
          simp [List.lookup, hkb]
        have hl2 : List.lookup k ((a, b) :: rest) = List.lookup k rest := by
          simp [List.lookup, hkb]
        have hl3 : List.lookup sym ((a, b) :: rest) = List.lookup sym rest := by
          simp [List.lookup, hpb]
        rw [hl1, hl2, hl3, ih]
  
/-- A key is absent from an association list iff its lookup is none. -/
theorem lookup_none_iff (d : List (String × List String)) (k : String) :
    d.lookup k = none ↔ k ∉ d.map Prod.fst := by
  induction d with
  | nil => simp [List.lookup]
  | cons p rest ih =>
    rcases p with ⟨a, b⟩
    by_cases hk : k = a
    · subst hk
      simp [List.lookup]
    · have hkb : (k == a) = false := beq_eq_false_iff_ne.mpr hk
      have hl : List.lookup k ((a, b) :: rest) = List.lookup k rest := by
        simp [List.lookup, hkb]
      rw [hl, List.map_cons, ih]
      simp [hk]

/-- The keys after one dict insertion: unchanged when the key was
present, otherwise the new key is appended. -/
theorem keys_addSym (d : List (String × List String)) (sym owner : String) :
    (addSym d sym owner).map Prod.fst =
      if (d.lookup sym).isSome then d.map Prod.fst
      else d.map Prod.fst ++ [sym] := by
  induction d with
  | nil => simp [addSym, List.lookup]
  | cons p rest ih =>
    rcases p with ⟨a, b⟩
    by_cases hp : a = sym
    · subst hp
      simp [addSym, List.lookup]
    · have hpb : (sym == a) = false :=
        beq_eq_false_iff_ne.mpr (fun hc => hp hc.symm)
      have haddc : addSym ((a, b) :: rest) sym owner =
          (a, b) :: addSym rest sym owner := by
        simp [addSym, hp]
      have hl3 : List.lookup sym ((a, b) :: rest) = List.lookup sym rest := by
        simp [List.lookup, hpb]
      rw [haddc, hl3, List.map_cons, List.map_cons, ih]
      by_cases hs : (rest.lookup sym).isSome <;> simp [hs]

/-- Dict insertion preserves key uniqueness. -/
theorem keysNodup_addSym (d : List (String × List String)) (sym owner : String)
    (hnd : (d.map Prod.fst).Nodup) :
    ((addSym d sym owner).map Prod.fst).Nodup := by
  rw [keys_addSym]
  by_cases hs : (d.lookup sym).isSome
  · simpa [hs] using hnd
  · have habs : sym ∉ d.map Prod.fst := by
      rw [← lookup_none_iff]
      exact Option.not_isSome_iff_eq_none.mp hs
    simp [hs, List.nodup_append, hnd, habs]

/-- Lookup after inserting the symbol enumeration of one module: every
symbol of the module gains the owner once, other keys are unchanged. -/
theorem lookup_innerFold (name : String) (syms : List String) :
    ∀ (d : List (String × List String)) (k : String), syms.Nodup →
      ((syms.foldl (fun d sym => addSym d sym name) d).lookup k) =
        (if k ∈ syms then some (((d.lookup k).getD []) ++ [name])
         else d.lookup k) := by
  induction syms with
  | nil => intro d k _; simp
  | cons s ss ih =>
    intro d k hnd
    have hnd2 : ss.Nodup := hnd.of_cons
    have hs : s ∉ ss := (List.nodup_cons.mp hnd).1
    rw [List.foldl_cons, ih (addSym d s name) k hnd2, lookup_addSym]
    by_cases hmem : k ∈ ss
    · have hks : ¬(k = s) := fun hc => hs (hc ▸ hmem)
      have hmem2 : k ∈ s :: ss := List.mem_cons_of_mem s hmem
      simp [hmem, hks, hmem2]
    · by_cases hks : k = s
      · subst hks
        simp [hmem]
      · have hnotc : k ∉ s :: ss := by
          simp [hks, hmem]
        simp [hmem, hks, hnotc]

/-- Inserting the symbols of one module preserves key uniqueness. -/
theorem keysNodup_innerFold (name : String) (syms : List String) :
    ∀ (d : List (String × List String)), (d.map Prod.fst).Nodup →
      (((syms.foldl (fun d sym => addSym d sym name) d)).map Prod.fst).Nodup := by
  induction syms with
  | nil => intro d hnd; simpa using hnd
  | cons s ss ih =>
    intro d hnd
    rw [List.foldl_cons]
    exact ih (addSym d s name) (keysNodup_addSym d s name hnd)

/-- Lookup over the whole module fold: a symbol maps to the lstripped
names of the modules defining it, in declaration order. -/
theorem lookup_symbolFold (mods : List (String × List String)) :
    ∀ (d : List (String × List String)) (k : String),
      (∀ m ∈ mods, m.2.Nodup) →
      ((mods.foldl
          (fun d m => m.2.foldl
            (fun d sym => addSym d sym (pyLstrip m.1 "pysam.")) d) d).lookup k) =
        (if definingModules mods k = [] then d.lookup k
         else some (((d.lookup k).getD []) ++ definingModules mods k)) := by
  induction mods with
  | nil =>
    intro d k _
    simp [definingModules]
  | cons m ms ih =>
    intro d k hnd
    have hm : m.2.Nodup := hnd m (List.mem_cons_self m ms)
    have hms : ∀ x ∈ ms, x.2.Nodup :=
      fun x hx => hnd x (List.mem_cons_of_mem m hx)
    rw [List.foldl_cons, ih _ k hms, lookup_innerFold _ _ _ _ hm]
    by_cases hmem : k ∈ m.2
    · have hdm : definingModules (m :: ms) k =
          pyLstrip m.1 "pysam." :: definingModules ms k := by
        simp [definingModules, List.filter_cons, hmem]
      rw [hdm]
      by_cases hrest : definingModules ms k = []
      · simp [hrest, hmem]
      · simp [hrest, hmem]
    · have hdm : definingModules (m :: ms) k = definingModules ms k := by
        simp [definingModules, List.filter_cons, hmem]
      rw [hdm]
      by_cases hrest : definingModules ms k = []
      · simp [hrest, hmem]
      · simp [hrest, hmem]

/-- The module fold preserves key uniqueness. -/
theorem keysNodup_symbolFold (mods : List (String × List String)) :
    ∀ d : List (String × List String), (d.map Prod.fst).Nodup →
      ((mods.foldl
          (fun d m => m.2.foldl
            (fun d sym => addSym d sym (pyLstrip m.1 "pysam.")) d) d).map
        Prod.fst).Nodup := by
  induction mods with
  | nil => intro d hnd; simpa using hnd
  | cons m ms ih =>
    intro d hnd
    rw [List.foldl_cons]
    exact ih _ (keysNodup_innerFold _ _ _ hnd)

/-- Lookup in the symbols dict of check_ext_symbol_conflicts. -/
theorem lookup_symbolDict (mods : List (String × List String)) (k : String)
    (hnd : ∀ m ∈ mods, m.2.Nodup) :
    (symbolDict mods).lookup k =
      if definingModules mods k = [] then none
      else some (definingModules mods k) := by
  have h := lookup_symbolFold mods [] k hnd
  by_cases hdm : definingModules mods k = [] <;>
    simpa [symbolDict, List.lookup, hdm] using h

/-- The symbols dict has unique keys. -/
theorem keysNodup_symbolDict (mods : List (String × List String)) :
    ((symbolDict mods).map Prod.fst).Nodup :=
  keysNodup_symbolFold mods [] (by simp)

/-- A successful lookup witnesses membership. -/
theorem mem_of_lookup (k : String) (v : List String) :
    ∀ d : List (String × List String), d.lookup k = some v → (k, v) ∈ d := by
  intro d
  induction d with
  | nil => intro h; simp [List.lookup] at h
  | cons p rest ih =>
    intro h
    rcases p with ⟨a, b⟩
    by_cases hk : k = a
    · subst hk
      have hb : b = v := by simpa [List.lookup] using h
      subst hb
      exact List.mem_cons_self _ _
    · have hkb : (k == a) = false := beq_eq_false_iff_ne.mpr hk
      have h2 : rest.lookup k = some v := by simpa [List.lookup, hkb] using h
      exact List.mem_cons_of_mem _ (ih h2)

/-- Membership determines lookup when keys are unique. -/
theorem lookup_of_mem (k : String) (v : List String) :
    ∀ d : List (String × List String), (d.map Prod.fst).Nodup →
      (k, v) ∈ d → d.lookup k = some v := by
  intro d
  induction d with
  | nil => intro _ h; simp at h
  | cons p rest ih =>
    intro hnd h
    rcases p with ⟨a, b⟩
    rw [List.map_cons] at hnd
    rcases List.mem_cons.mp h with heq | hmem
    · have h1 : k = a := congrArg Prod.fst heq
      have h2 : v = b := congrArg Prod.snd heq
      subst h1
      subst h2
      simp [List.lookup]
    · have hka : ¬(k = a) := by
        intro hc
        subst hc
        have hmap : k ∈ rest.map Prod.fst := List.mem_map_of_mem Prod.fst hmem
        exact (List.nodup_cons.mp hnd).1 hmap
      have hkb : (k == a) = false := beq_eq_false_iff_ne.mpr hka
      simp [List.lookup, hkb, ih (List.nodup_cons.mp hnd).2 hmem]

/-- Under unique keys there is exactly one dict entry per looked-up key. -/
theorem filter_key_eq (k : String) :
    ∀ d : List (String × List String), (d.map Prod.fst).Nodup →
      ∀ v, d.lookup k = some v → d.filter (fun e => e.1 == k) = [(k, v)] := by
  intro d
  induction d with
  | nil => intro _ v h; simp [List.lookup] at h
  | cons p rest ih =>
    intro hnd v h
    rcases p with ⟨a, b⟩
    rw [List.map_cons] at hnd
    by_cases hk : k = a
    · subst hk
      have hb : b = v := by simpa [List.lookup] using h
      subst hb
      have hrest : rest.filter (fun e => e.1 == k) = [] := by
        rw [List.filter_eq_nil_iff]
        intro e he
        have hmap : e.1 ∈ rest.map Prod.fst := List.mem_map_of_mem Prod.fst he
        have hne : ¬(e.1 = k) := by
          intro hc
          exact (List.nodup_cons.mp hnd).1 (hc ▸ hmap)
        simp [hne]
      simp [List.filter_cons, hrest]
    · have hab : (a == k) = false :=
        beq_eq_false_iff_ne.mpr (fun hc => hk hc.symm)
      have hkb : (k == a) = false := beq_eq_false_iff_ne.mpr hk
      have h2 : rest.lookup k = some v := by simpa [List.lookup, hkb] using h
      rw [List.filter_cons]
      simp only [hab, Bool.false_eq_true, if_false]
      exact ih (List.nodup_cons.mp hnd).2 v h2

/-- check_ext_symbol_conflicts raises iff some symbol is defined by at
least two modules. -/
theorem check_raises_iff (mods : List (String × List String))
    (hnd : ∀ m ∈ mods, m.2.Nodup) :
    check_raises mods = true ↔
      ∃ sym, 2 ≤ (definingModules mods sym).length := by
  unfold check_raises
  rw [List.any_eq_true]
  constructor
  · rintro ⟨e, he, hlen⟩
    rcases e with ⟨k, v⟩
    have hl : (symbolDict mods).lookup k = some v :=
      lookup_of_mem k v (symbolDict mods) (keysNodup_symbolDict mods) he
    rw [lookup_symbolDict mods k hnd] at hl
    by_cases hdm : definingModules mods k = []
    · rw [if_pos hdm] at hl
      exact absurd hl (by simp)
    · rw [if_neg hdm] at hl
      have hv := Option.some.inj hl
      subst hv
      exact ⟨k, by simpa using hlen⟩
  · rintro ⟨sym, hlen⟩
    have hne : definingModules mods sym ≠ [] := by
      intro hc
      rw [hc] at hlen
      simp at hlen
    have hl : (symbolDict mods).lookup sym = some (definingModules mods sym) := by
      rw [lookup_symbolDict mods sym hnd, if_neg hne]
    refine ⟨(sym, definingModules mods sym),
      mem_of_lookup _ _ _ hl, by simpa using hlen⟩

/-- C6 counterexample: with HTSLIB_MODE set to separate but an
external library directory supplied, the resolved LinkMode is External
(not Embedded-Separate), two modules both define foo so the conflict
check would raise, and yet the run does not fail because
cy_build_ext.run gates the validator on the raw HTSLIB_MODE string.
This refutes the claimed equivalence between a failing run and
duplicate symbols for every non-Embedded-Separate LinkMode. -/
theorem C6_counterexample :
    (∃ cfg, resolveTop
        ⟨fun v => if v = "HTSLIB_MODE" then some "separate"
                  else if v = "HTSLIB_LIBRARY_DIR" then some "/opt/htslib/lib"
                  else if v = "HTSLIB_INCLUDE_DIR" then some "/opt/htslib/include"
                  else none,
         true, fun _ => true, []⟩ = .ok cfg ∧
       cfg.linkMode = .external) ∧
    ((fun v => if v = "HTSLIB_MODE" then some "separate"
               else if v = "HTSLIB_LIBRARY_DIR" then some "/opt/htslib/lib"
               else if v = "HTSLIB_INCLUDE_DIR" then some "/opt/htslib/include"
               else none : String → Option String) "HTSLIB_MODE").getD "shared"
      = "separate" ∧
    check_raises
      [("pysam.libchtslib", ["foo"]), ("pysam.libcutils", ["foo"])] = true ∧
    cy_run_raises "separate"
      [("pysam.libchtslib", ["foo"]), ("pysam.libcutils", ["foo"])] = false := by
  exact ⟨⟨_, rfl, rfl⟩, rfl, rfl, rfl⟩

/-- C6 amended: the validator is gated on the raw HTSLIB_MODE string,
not on the resolved LinkMode: the run raises a link error iff
HTSLIB_MODE is not separate and some symbol is exported by more than
one built module (so with HTSLIB_MODE separate and an external library
directory supplied, LinkMode resolves to External yet duplicates do not
fail the run); whenever the resolved LinkMode is Embedded-Separate the
validator indeed does not run, since that resolution forces
HTSLIB_MODE to be separate; and for two modules both defining foo the
symbols dict has exactly one conflict entry listing both (lstripped)
module names. -/
theorem C6_symbol_validator (mode : String) (mods : List (String × List String))
    (hnd : ∀ m ∈ mods, m.2.Nodup) :
    (cy_run_raises mode mods = true ↔
       (mode ≠ "separate" ∧ ∃ sym, 2 ≤ (definingModules mods sym).length)) ∧
    (∀ (i : TopInputs) (cfg : ResolvedConfig), resolveTop i = .ok cfg →
       cfg.linkMode = .separate →
       cy_run_raises ((i.environ "HTSLIB_MODE").getD "shared") mods = false) ∧
    (validator_runs "separate" = false) ∧
    (cy_run_raises "separate" mods = false) ∧
    (∀ n1 s1 n2 s2, mods = [(n1, s1), (n2, s2)] → "foo" ∈ s1 → "foo" ∈ s2 →
       (symbolDict mods).filter (fun e => e.1 == "foo") =
         [("foo", [pyLstrip n1 "pysam.", pyLstrip n2 "pysam."])] ∧
       (mode ≠ "separate" → cy_run_raises mode mods = true)) := by
  refine ⟨?_, ?_, rfl, by simp [cy_run_raises], ?_⟩
  · unfold cy_run_raises
    by_cases hm : mode = "separate"
    · simp [hm]
    · simp [hm, check_raises_iff mods hnd]
  · intro i cfg h hl
    obtain ⟨-, -, -, -, -, -, hsep, -⟩ := resolveTop_char i cfg h
    rw [(hsep hl).1]
    simp [cy_run_raises]
  · intro n1 s1 n2 s2 hmods hf1 hf2
    subst hmods
    have hdm : definingModules [(n1, s1), (n2, s2)] "foo" =
        [pyLstrip n1 "pysam.", pyLstrip n2 "pysam."] := by
      simp [definingModules, List.filter_cons, hf1, hf2]
    have hl : (symbolDict [(n1, s1), (n2, s2)]).lookup "foo" =
        some [pyLstrip n1 "pysam.", pyLstrip n2 "pysam."] := by
      rw [lookup_symbolDict _ _ hnd, hdm]
      simp
    refine ⟨filter_key_eq "foo" _ (keysNodup_symbolDict _) _ hl, ?_⟩
    intro hm
    unfold cy_run_raises
    rw [if_neg hm]
    exact (check_raises_iff _ hnd).mpr ⟨"foo", by rw [hdm]; simp⟩

/-- C6 witness: two concrete modules both defining foo conflict and
fail a shared-mode run, with one conflict entry naming both modules,
while a separate-mode run succeeds. -/
theorem C6_symbol_validator_witness :
    cy_run_raises "shared"
      [("pysam.libchtslib", ["foo"]), ("pysam.libcutils", ["foo"])] = true ∧
    cy_run_raises "separate"
      [("pysam.libchtslib", ["foo"]), ("pysam.libcutils", ["foo"])] = false ∧
    (symbolDict
        [("pysam.libchtslib", ["foo"]), ("pysam.libcutils", ["foo"])]).filter
      (fun e => e.1 == "foo") = [("foo", ["libchtslib", "libcutils"])] := by
  have h := C6_symbol_validator "shared"
    [("pysam.libchtslib", ["foo"]), ("pysam.libcutils", ["foo"])] (by simp)
  obtain ⟨hfil, hrun⟩ := h.2.2.2.2 "pysam.libchtslib" ["foo"]
    "pysam.libcutils" ["foo"] rfl (by simp) (by simp)
  refine ⟨hrun (by simp), h.2.2.2.1, ?_⟩
  rw [hfil]
  rfl

/-- The environment at a variable other than the processed one is
unchanged by one loop iteration of set_compiler_envvars. -/
theorem setupEnvVar_env_ne (sysvars : String → Option String)
    (acc : PState × List String) (var x : String) (hx : ¬(x = var)) :
    (setupEnvVar sysvars acc var).1.env x = acc.1.env x := by
  unfold setupEnvVar
  cases h1 : acc.1.env var with
  | some val =>
    cases h2 : sysvars "CCSHARED" with
    | some cs =>
      by_cases hv : var = "CFLAGS"
      · subst hv
        simp [envUpdate, hx]
      · simp [hv]
    | none => rfl
  | none =>
    cases h3 : sysvars var with
    | some v => simp [envUpdate, hx]
    | none => rfl

/-- tmp_vars is unchanged when the variable was already present. -/
theorem setupEnvVar_tmp_of_some (sysvars : String → Option String)
    (acc : PState × List String) (var : String) (val : String)
    (h1 : acc.1.env var = some val) :
    (setupEnvVar sysvars acc var).2 = acc.2 := by
  unfold setupEnvVar
  rw [h1]
  cases h2 : sysvars "CCSHARED" with
  | some cs => by_cases hv : var = "CFLAGS" <;> simp [hv]
  | none => rfl

/-- tmp_vars gains the variable when it was absent and sysconfig
provides a value. -/
theorem setupEnvVar_tmp_of_none_some (sysvars : String → Option String)
    (acc : PState × List String) (var : String) (v : String)
    (h1 : acc.1.env var = none) (h3 : sysvars var = some v) :
    (setupEnvVar sysvars acc var).2 = acc.2 ++ [var] := by
  unfold setupEnvVar
  rw [h1, h3]

/-- tmp_vars is unchanged when neither the environment nor sysconfig
have the variable. -/
theorem setupEnvVar_tmp_of_none_none (sysvars : String → Option String)
    (acc : PState × List String) (var : String)
    (h1 : acc.1.env var = none) (h3 : sysvars var = none) :
    (setupEnvVar sysvars acc var).2 = acc.2 := by
  unfold setupEnvVar
  rw [h1, h3]

/-- Every tmp_vars member either was there before the iteration or is
the processed variable. -/
theorem setupEnvVar_tmp_sub (sysvars : String → Option String)
    (acc : PState × List String) (var x : String)
    (hx : x ∈ (setupEnvVar sysvars acc var).2) : x ∈ acc.2 ∨ x = var := by
  cases h1 : acc.1.env var with
  | some val =>
    rw [setupEnvVar_tmp_of_some sysvars acc var val h1] at hx
    exact Or.inl hx
  | none =>
    cases h3 : sysvars var with
    | some v =>
      rw [setupEnvVar_tmp_of_none_some sysvars acc var v h1 h3] at hx
      rcases List.mem_append.mp hx with h | h
      · exact Or.inl h
      · simp at h
        exact Or.inr h
    | none =>
      rw [setupEnvVar_tmp_of_none_none sysvars acc var h1 h3] at hx
      exact Or.inl hx

/-- tmp_vars membership is preserved by later iterations. -/
theorem setupEnvVar_tmp_extends (sysvars : String → Option String)
    (acc : PState × List String) (var x : String) (hx : x ∈ acc.2) :
    x ∈ (setupEnvVar sysvars acc var).2 := by
  cases h1 : acc.1.env var with
  | some val =>
    rw [setupEnvVar_tmp_of_some sysvars acc var val h1]
    exact hx
  | none =>
    cases h3 : sysvars var with
    | some v =>
      rw [setupEnvVar_tmp_of_none_some sysvars acc var v h1 h3]
      exact List.mem_append_left _ hx
    | none =>
      rw [setupEnvVar_tmp_of_none_none sysvars acc var h1 h3]
      exact hx

/-- A present variable other than CFLAGS is left untouched. -/
theorem setupEnvVar_env_self_other (sysvars : String → Option String)
    (acc : PState × List String) (var : String) (val : String)
    (h1 : acc.1.env var = some val) (hv : ¬(var = "CFLAGS")) :
    (setupEnvVar sysvars acc var).1.env var = some val := by
  unfold setupEnvVar
  rw [h1]
  cases h2 : sysvars "CCSHARED" with
  | some cs => simp [hv, h1]
  | none => exact h1

/-- A present CFLAGS is left untouched when sysconfig has no CCSHARED. -/
theorem setupEnvVar_env_self_cflags_none (sysvars : String → Option String)
    (acc : PState × List String) (val : String)
    (h1 : acc.1.env "CFLAGS" = some val) (h2 : sysvars "CCSHARED" = none) :
    (setupEnvVar sysvars acc "CFLAGS").1.env "CFLAGS" = some val := by
  unfold setupEnvVar
  rw [h1, h2]
  exact h1

/-- A present CFLAGS permanently gains the CCSHARED value in place. -/
theorem setupEnvVar_env_self_cflags_ccshared (sysvars : String → Option String)
    (acc : PState × List String) (val cs : String)
    (h1 : acc.1.env "CFLAGS" = some val) (h2 : sysvars "CCSHARED" = some cs) :
    (setupEnvVar sysvars acc "CFLAGS").1.env "CFLAGS" =
      some (val ++ " " ++ cs) := by
  unfold setupEnvVar
  rw [h1, h2]
  simp [envUpdate]

/-- A variable absent from both the environment and sysconfig stays
absent. -/
theorem setupEnvVar_env_self_none (sysvars : String → Option String)
    (acc : PState × List String) (var : String)
    (h1 : acc.1.env var = none) (h3 : sysvars var = none) :
    (setupEnvVar sysvars acc var).1.env var = none := by
  unfold setupEnvVar
  rw [h1, h3]
  exact h1

/-- Deleting the tmp_vars in the finally clause: a variable reads as
none iff it was deleted, and is otherwise unchanged. -/
theorem foldl_envUpdate_none (tmp : List String) :
    ∀ (e : String → Option String) (x : String),
      (tmp.foldl (fun e v => envUpdate e v none) e) x =
        if x ∈ tmp then none else e x := by
  induction tmp with
  | nil => intro e x; simp
  | cons t ts ih =>
    intro e x
    rw [List.foldl_cons, ih]
    by_cases hmem : x ∈ ts
    · simp [hmem]
    · by_cases hxt : x = t
      · subst hxt
        simp [hmem, envUpdate]
      · simp [hmem, hxt, envUpdate]

/-- The final environment of set_compiler_envvars, for a body that does
not itself modify the environment. -/
theorem set_compiler_envvars_env {α : Type} (sysvars : String → Option String)
    (body : PState → PyResult α × PState) (st : PState)
    (hbody : ∀ s, (body s).2.env = s.env) (x : String) :
    (set_compiler_envvars sysvars body st).2.env x =
      (if x ∈ (List.foldl (setupEnvVar sysvars) (st, [])
                  ["CC", "CFLAGS", "LDFLAGS"]).2 then none
       else (List.foldl (setupEnvVar sysvars) (st, [])
              ["CC", "CFLAGS", "LDFLAGS"]).1.env x) := by
  have hshape : (set_compiler_envvars sysvars body st).2.env =
      List.foldl (fun e v => envUpdate e v none)
        (body (List.foldl (setupEnvVar sysvars) (st, [])
          ["CC", "CFLAGS", "LDFLAGS"]).1).2.env
        (List.foldl (setupEnvVar sysvars) (st, [])
          ["CC", "CFLAGS", "LDFLAGS"]).2 := rfl
  rw [hshape, foldl_envUpdate_none, hbody]

/-- C8 counterexample: with CFLAGS already present in the environment
and a CCSHARED sysconfig value, set_compiler_envvars appends CCSHARED to
the environment value in place and never restores it, so the
environment is changed by the scope even on normal exit.  This refutes
the claim that every temporarily overridden variable is restored to its
prior state. -/
theorem C8_counterexample :
    ((set_compiler_envvars (fun v => if v = "CCSHARED" then some "-fPIC" else none)
        (fun s => (PyResult.ok (0 : Nat), s))
        { cwd := "/build", env := fun v => if v = "CFLAGS" then some "-O2" else none }).2.env
      "CFLAGS" = some "-O2 -fPIC") ∧
    ¬((set_compiler_envvars (fun v => if v = "CCSHARED" then some "-fPIC" else none)
        (fun s => (PyResult.ok (0 : Nat), s))
        { cwd := "/build", env := fun v => if v = "CFLAGS" then some "-O2" else none }).2.env
      "CFLAGS" =
      ({ cwd := "/build",
         env := fun v => if v = "CFLAGS" then some "-O2" else none } : PState).env
        "CFLAGS") := by
  exact ⟨rfl, by decide⟩

/-- C8 amended: the working directory is restored by changedir on every
exit path including exceptions; for an environment-preserving body,
set_compiler_envvars leaves variables other than CC, CFLAGS and LDFLAGS
untouched, restores to absent any of the three that was absent before,
and leaves a present CC or LDFLAGS (and a present CFLAGS when sysconfig
has no CCSHARED) unchanged; but a present CFLAGS with a CCSHARED
sysconfig value comes out of the scope permanently extended. -/
theorem C8_scoped_state {α : Type} (path : String)
    (body : PState → PyResult α × PState) (st : PState)
    (sysvars : String → Option String)
    (hbody : ∀ s, (body s).2.env = s.env) :
    ((changedir path body st).2.cwd = st.cwd) ∧
    (∀ v, ¬(v = "CC") → ¬(v = "CFLAGS") → ¬(v = "LDFLAGS") →
       (set_compiler_envvars sysvars body st).2.env v = st.env v) ∧
    (∀ v, (v = "CC" ∨ v = "CFLAGS" ∨ v = "LDFLAGS") → st.env v = none →
       (set_compiler_envvars sysvars body st).2.env v = none) ∧
    (∀ v val, (v = "CC" ∨ v = "LDFLAGS") → st.env v = some val →
       (set_compiler_envvars sysvars body st).2.env v = some val) ∧
    (∀ val, st.env "CFLAGS" = some val → sysvars "CCSHARED" = none →
       (set_compiler_envvars sysvars body st).2.env "CFLAGS" = some val) ∧
    (∀ val cs, st.env "CFLAGS" = some val → sysvars "CCSHARED" = some cs →
       (set_compiler_envvars sysvars body st).2.env "CFLAGS" =
         some (val ++ " " ++ cs)) := by
  have hfin := set_compiler_envvars_env sysvars body st hbody
  obtain ⟨a1, ha1⟩ : ∃ a, setupEnvVar sysvars (st, []) "CC" = a := ⟨_, rfl⟩
  obtain ⟨a2, ha2⟩ : ∃ a, setupEnvVar sysvars a1 "CFLAGS" = a := ⟨_, rfl⟩
  obtain ⟨a3, ha3⟩ : ∃ a, setupEnvVar sysvars a2 "LDFLAGS" = a := ⟨_, rfl⟩
  have hfold : List.foldl (setupEnvVar sysvars) (st, [])
      ["CC", "CFLAGS", "LDFLAGS"] = a3 := by
    rw [show List.foldl (setupEnvVar sysvars) (st, [])
          ["CC", "CFLAGS", "LDFLAGS"] =
        setupEnvVar sysvars (setupEnvVar sysvars
          (setupEnvVar sysvars (st, []) "CC") "CFLAGS") "LDFLAGS" from rfl,
      ha1, ha2, ha3]
  have hfin2 : ∀ x, (set_compiler_envvars sysvars body st).2.env x =
      if x ∈ a3.2 then none else a3.1.env x := by
    intro x
    rw [hfin x, hfold]
  have he1 : ∀ x, ¬(x = "CC") → a1.1.env x = st.env x := by
    intro x hx
    rw [← ha1]
    exact setupEnvVar_env_ne sysvars (st, []) "CC" x hx
  have he2 : ∀ x, ¬(x = "CFLAGS") → a2.1.env x = a1.1.env x := by
    intro x hx
    rw [← ha2]
    exact setupEnvVar_env_ne sysvars a1 "CFLAGS" x hx
  have he3 : ∀ x, ¬(x = "LDFLAGS") → a3.1.env x = a2.1.env x := by
    intro x hx
    rw [← ha3]
    exact setupEnvVar_env_ne sysvars a2 "LDFLAGS" x hx
  have hs1 : ∀ x, x ∈ a1.2 → x = "CC" := by
    intro x hx
    rw [← ha1] at hx
    rcases setupEnvVar_tmp_sub sysvars (st, []) "CC" x hx with h | h
    · simp at h
    · exact h
  have hs2 : ∀ x, x ∈ a2.2 → x = "CC" ∨ x = "CFLAGS" := by
    intro x hx
    rw [← ha2] at hx
    rcases setupEnvVar_tmp_sub sysvars a1 "CFLAGS" x hx with h | h
    · exact Or.inl (hs1 x h)
    · exact Or.inr h
  have hs3 : ∀ x, x ∈ a3.2 → x = "CC" ∨ x = "CFLAGS" ∨ x = "LDFLAGS" := by
    intro x hx
    rw [← ha3] at hx
    rcases setupEnvVar_tmp_sub sysvars a2 "LDFLAGS" x hx with h | h
    · rcases hs2 x h with h2 | h2
      · exact Or.inl h2
      · exact Or.inr (Or.inl h2)
    · exact Or.inr (Or.inr h)
  refine ⟨rfl, ?_, ?_, ?_, ?_, ?_⟩
  · intro v h1 h2 h3
    have hnm : v ∉ a3.2 := by
      intro hmem
      rcases hs3 v hmem with h | h | h
      · exact h1 h
      · exact h2 h
      · exact h3 h
    rw [hfin2 v, if_neg hnm, he3 v h3, he2 v h2, he1 v h1]
  · intro v hv hnone
    rcases hv with rfl | rfl | rfl
    · cases hsv : sysvars "CC" with
      | some w =>
        have hm1 : "CC" ∈ a1.2 := by
          rw [← ha1, setupEnvVar_tmp_of_none_some sysvars (st, []) "CC" w
            hnone hsv]
          simp
        have hm2 : "CC" ∈ a2.2 := by
          rw [← ha2]
          exact setupEnvVar_tmp_extends sysvars a1 "CFLAGS" _ hm1
        have hm3 : "CC" ∈ a3.2 := by
          rw [← ha3]
          exact setupEnvVar_tmp_extends sysvars a2 "LDFLAGS" _ hm2
        rw [hfin2 _, if_pos hm3]
      | none =>
        have h1n : a1.1.env "CC" = none := by
          rw [← ha1]
          exact setupEnvVar_env_self_none sysvars (st, []) "CC" hnone hsv
        have h3n : a3.1.env "CC" = none := by
          rw [he3 _ (by decide), he2 _ (by decide)]
          exact h1n
        rw [hfin2 _]
        by_cases hm : "CC" ∈ a3.2
        · rw [if_pos hm]
        · rw [if_neg hm]
          exact h3n
    · have h1n : a1.1.env "CFLAGS" = none := by
        rw [he1 _ (by decide)]
        exact hnone
      cases hsv : sysvars "CFLAGS" with
      | some w =>
        have hm2 : "CFLAGS" ∈ a2.2 := by
          rw [← ha2, setupEnvVar_tmp_of_none_some sysvars a1 "CFLAGS" w h1n hsv]
          simp
        have hm3 : "CFLAGS" ∈ a3.2 := by
          rw [← ha3]
          exact setupEnvVar_tmp_extends sysvars a2 "LDFLAGS" _ hm2
        rw [hfin2 _, if_pos hm3]
      | none =>
        have h2n : a2.1.env "CFLAGS" = none := by
          rw [← ha2]
          exact setupEnvVar_env_self_none sysvars a1 "CFLAGS" h1n hsv
        have h3n : a3.1.env "CFLAGS" = none := by
          rw [he3 _ (by decide)]
          exact h2n
        rw [hfin2 _]
        by_cases hm : "CFLAGS" ∈ a3.2
        · rw [if_pos hm]
        · rw [if_neg hm]
          exact h3n
    · have h2n : a2.1.env "LDFLAGS" = none := by
        rw [he2 _ (by decide), he1 _ (by decide)]
        exact hnone
      cases hsv : sysvars "LDFLAGS" with
      | some w =>
        have hm3 : "LDFLAGS" ∈ a3.2 := by
          rw [← ha3, setupEnvVar_tmp_of_none_some sysvars a2 "LDFLAGS" w
            h2n hsv]
          simp
        rw [hfin2 _, if_pos hm3]
      | none =>
        have h3n : a3.1.env "LDFLAGS" = none := by
          rw [← ha3]
          exact setupEnvVar_env_self_none sysvars a2 "LDFLAGS" h2n hsv
        rw [hfin2 _]
        by_cases hm : "LDFLAGS" ∈ a3.2
        · rw [if_pos hm]
        · rw [if_neg hm]
          exact h3n
  · intro v val hv hsome
    rcases hv with rfl | rfl
    · have h1s : a1.1.env "CC" = some val := by
        rw [← ha1]
        exact setupEnvVar_env_self_other sysvars (st, []) "CC" val hsome
          (by decide)
      have h3s : a3.1.env "CC" = some val := by
        rw [he3 _ (by decide), he2 _ (by decide)]
        exact h1s
      have ht1 : a1.2 = [] := by
        rw [← ha1]
        exact setupEnvVar_tmp_of_some sysvars (st, []) "CC" val hsome
      have hnm : "CC" ∉ a3.2 := by
        intro hm
        rw [← ha3] at hm
        rcases setupEnvVar_tmp_sub sysvars a2 "LDFLAGS" _ hm with h | h
        · rw [← ha2] at h
          rcases setupEnvVar_tmp_sub sysvars a1 "CFLAGS" _ h with h2 | h2
          · rw [ht1] at h2
            simp at h2
          · exact absurd h2 (by decide)
        · exact absurd h (by decide)
      rw [hfin2 _, if_neg hnm]
      exact h3s
    · have h2s : a2.1.env "LDFLAGS" = some val := by
        rw [he2 _ (by decide), he1 _ (by decide)]
        exact hsome
      have h3s : a3.1.env "LDFLAGS" = some val := by
        rw [← ha3]
        exact setupEnvVar_env_self_other sysvars a2 "LDFLAGS" val h2s
          (by decide)
      have ht3 : a3.2 = a2.2 := by
        rw [← ha3]
        exact setupEnvVar_tmp_of_some sysvars a2 "LDFLAGS" val h2s
      have hnm : "LDFLAGS" ∉ a3.2 := by
        intro hm
        rw [ht3] at hm
        rcases hs2 _ hm with h | h <;> exact absurd h (by decide)
      rw [hfin2 _, if_neg hnm]
      exact h3s
  · intro val hsome hnocc
    have h1s : a1.1.env "CFLAGS" = some val := by
      rw [he1 _ (by decide)]
      exact hsome
    have h2s : a2.1.env "CFLAGS" = some val := by
      rw [← ha2]
      exact setupEnvVar_env_self_cflags_none sysvars a1 val h1s hnocc
    have h3s : a3.1.env "CFLAGS" = some val := by
      rw [he3 _ (by decide)]
      exact h2s
    have ht2 : a2.2 = a1.2 := by
      rw [← ha2]
      exact setupEnvVar_tmp_of_some sysvars a1 "CFLAGS" val h1s
    have hnm : "CFLAGS" ∉ a3.2 := by
      intro hm
      rw [← ha3] at hm
      rcases setupEnvVar_tmp_sub sysvars a2 "LDFLAGS" _ hm with h | h
      · rw [ht2] at h
        exact absurd (hs1 _ h) (by decide)
      · exact absurd h (by decide)
    rw [hfin2 _, if_neg hnm]
    exact h3s
  · intro val cs hsome hcc
    have h1s : a1.1.env "CFLAGS" = some val := by
      rw [he1 _ (by decide)]
      exact hsome
    have h2s : a2.1.env "CFLAGS" = some (val ++ " " ++ cs) := by
      rw [← ha2]
      exact setupEnvVar_env_self_cflags_ccshared sysvars a1 val cs h1s hcc
    have h3s : a3.1.env "CFLAGS" = some (val ++ " " ++ cs) := by
      rw [he3 _ (by decide)]
      exact h2s
    have ht2 : a2.2 = a1.2 := by
      rw [← ha2]
      exact setupEnvVar_tmp_of_some sysvars a1 "CFLAGS" val h1s
    have hnm : "CFLAGS" ∉ a3.2 := by
      intro hm
      rw [← ha3] at hm
      rcases setupEnvVar_tmp_sub sysvars a2 "LDFLAGS" _ hm with h | h
      · rw [ht2] at h
        exact absurd (hs1 _ h) (by decide)
      · exact absurd h (by decide)
    rw [hfin2 _, if_neg hnm]
    exact h3s

/-- C8 witness: an exception-raising body still gets the working
directory restored, and a sysconfig-injected CC is removed again. -/
theorem C8_scoped_state_witness :
    ((changedir "htslib" (fun s => ((PyResult.exn "CompileError" : PyResult Nat), s))
        { cwd := "/build", env := fun _ => none }).2.cwd = "/build") ∧
    ((set_compiler_envvars (fun v => if v = "CC" then some "gcc" else none)
        (fun s => ((PyResult.exn "CompileError" : PyResult Nat), s))
        { cwd := "/build", env := fun _ => none }).2.env "CC" = none) := by
  have h := C8_scoped_state "htslib"
    (fun s => ((PyResult.exn "CompileError" : PyResult Nat), s))
    { cwd := "/build", env := fun _ => none }
    (fun v => if v = "CC" then some "gcc" else none)
    (fun _ => rfl)
  exact ⟨h.1, h.2.2.1 "CC" (Or.inl rfl) rfl⟩

end PysamSetup
